import Mathlib

/-!
Verification of the client-side behavior of the AdamTroy portfolio site.

The two source files are embedded shallowly:
* `network-hero.js` — the particle animation (`NetworkHero`): node positions
  and velocities become rationals, `Math.random()` becomes an explicit stream
  of rationals, `Math.sqrt` becomes an explicit function parameter (its value
  is irrelevant to the boundary behavior), and the side-effecting `init`
  becomes a trace of abstract actions.
* `script.js` — theme manager, experience-timeline loader, smooth scroll,
  scroll progress and active-navigation highlighting: DOM writes become
  values of an `Html` tree type, browser storage becomes an `Option String`,
  and scroll geometry becomes rational arithmetic.
-/

namespace AdamTroy

/-! ## network-hero.js -/

/-- One animated particle, as pushed by `createNodes`:
position `(x, y)`, velocity `(vx, vy)`, fixed `radius`. -/
structure Node where
  x : ℚ
  y : ℚ
  vx : ℚ
  vy : ℚ
  radius : ℚ
deriving Repr, DecidableEq

/-- `this.config.nodeCount` -/
def nodeCount : ℕ := 50

/-- `this.config.maxDistance` -/
def maxDistance : ℚ := 150

/-- `this.config.nodeRadius` -/
def nodeRadius : ℚ := 2

/-- `this.config.nodeSpeed = 0.3` -/
def nodeSpeed : ℚ := 3 / 10

/-- `this.config.mouseInfluence` -/
def mouseInfluence : ℚ := 80

/-- `this.config.parallaxStrength = 0.02` -/
def parallaxStrength : ℚ := 2 / 100

/-- The mouse-influence step of `updateNodes`: when both mouse coordinates
are non-null and the distance to the node is below `mouseInfluence`, a force
proportional to `(mouseInfluence - distance) / mouseInfluence` is added to
the velocity.  `sqrt` stands for `Math.sqrt`, kept as a parameter of the
embedding; nothing proved below depends on its values. -/
def influencedVelocity (sqrt : ℚ → ℚ) (mouseX mouseY : Option ℚ) (n : Node) :
    ℚ × ℚ :=
  match mouseX, mouseY with
  | some mx, some my =>
    let dx := mx - n.x
    let dy := my - n.y
    let distance := sqrt (dx * dx + dy * dy)
    if distance < mouseInfluence then
      let force := (mouseInfluence - distance) / mouseInfluence
      (n.vx + dx * force * parallaxStrength,
       n.vy + dy * force * parallaxStrength)
    else
      (n.vx, n.vy)
  | _, _ => (n.vx, n.vy)

/-- The per-node body of `updateNodes`: mouse influence, position integration,
boundary reflection (`if (node.x < 0 || node.x > width) node.vx *= -1`),
clamping (`node.x = Math.max(0, Math.min(width, node.x))`), and damping
(`node.vx *= 0.99`). `w`, `h` are `canvas.width`, `canvas.height`. -/
def updateNode (sqrt : ℚ → ℚ) (mouseX mouseY : Option ℚ) (w h : ℚ)
    (n : Node) : Node :=
  let v := influencedVelocity sqrt mouseX mouseY n
  let x1 := n.x + v.1
  let y1 := n.y + v.2
  let vx1 := if x1 < 0 ∨ x1 > w then -v.1 else v.1
  let vy1 := if y1 < 0 ∨ y1 > h then -v.2 else v.2
  { x := max 0 (min w x1)
    y := max 0 (min h y1)
    vx := vx1 * (99 / 100)
    vy := vy1 * (99 / 100)
    radius := n.radius }

/-- `updateNodes`: the per-node update applied to every node
(`this.nodes.forEach(...)`). -/
def updateNodes (sqrt : ℚ → ℚ) (mouseX mouseY : Option ℚ) (w h : ℚ)
    (nodes : List Node) : List Node :=
  nodes.map (updateNode sqrt mouseX mouseY w h)

/-- `createNodes`: replaces the node list with `nodeCount` freshly random
nodes.  `rand` is the stream of `Math.random()` results, indexed in call
order (four calls per node: x, y, vx, vy). -/
def createNodes (rand : ℕ → ℚ) (w h : ℚ) : List Node :=
  (List.range nodeCount).map fun i =>
    { x := rand (4 * i) * w
      y := rand (4 * i + 1) * h
      vx := (rand (4 * i + 2) - 1 / 2) * nodeSpeed
      vy := (rand (4 * i + 3) - 1 / 2) * nodeSpeed
      radius := nodeRadius }

/-- The mutable state of a `NetworkHero` instance that the claims touch:
canvas dimensions, node list, nullable mouse coordinates. -/
structure HeroState where
  canvasWidth : ℚ
  canvasHeight : ℚ
  nodes : List Node
  mouseX : Option ℚ
  mouseY : Option ℚ
deriving Repr

/-- `setCanvasSize`: canvas dimensions are reset to the viewport size. -/
def setCanvasSize (innerWidth innerHeight : ℚ) (st : HeroState) : HeroState :=
  { st with canvasWidth := innerWidth, canvasHeight := innerHeight }

/-- The `resize` listener attached by `attachEventListeners`:
`setCanvasSize` followed by `createNodes`. -/
def resizeHandler (rand : ℕ → ℚ) (innerWidth innerHeight : ℚ)
    (st : HeroState) : HeroState :=
  let st1 := setCanvasSize innerWidth innerHeight st
  { st1 with nodes := createNodes rand st1.canvasWidth st1.canvasHeight }

/-- Abstract side effects performed by `NetworkHero.init` and the functions
it calls.  `renderFrame` is one full `render()` (clear, connections, nodes);
`scheduleAnimationFrame` is one `requestAnimationFrame` call. -/
inductive HeroAction where
  | setSize
  | makeNodes
  | addResizeListener
  | addMousemoveListener
  | addMouseleaveListener
  | updateStep
  | renderFrame
  | scheduleAnimationFrame
deriving Repr, DecidableEq

/-- `renderStatic()` just calls `render()`: one static frame. -/
def renderStaticActions : List HeroAction := [.renderFrame]

/-- `attachEventListeners()`: three `window.addEventListener` calls. -/
def attachListenerActions : List HeroAction :=
  [.addResizeListener, .addMousemoveListener, .addMouseleaveListener]

/-- One turn of `animate()`: `updateNodes`, `render`, then
`requestAnimationFrame`. -/
def animateActions : List HeroAction :=
  [.updateStep, .renderFrame, .scheduleAnimationFrame]

/-- The action trace of `NetworkHero.init`: `setCanvasSize`, `createNodes`,
then either listeners plus the first `animate()` turn, or — when
`prefersReducedMotion` holds — a single `renderStatic()`.  In the
reduced-motion branch the trace is the whole behavior of the instance: no
listener is attached and no frame is scheduled, so no further turn ever
runs. -/
def initActions (prefersReducedMotion : Bool) : List HeroAction :=
  [.setSize, .makeNodes] ++
    (if prefersReducedMotion then renderStaticActions
     else attachListenerActions ++ animateActions)

/-! ## Theorems for the NetworkHero claims -/

/-- C1: For every frame (`updateNodes` call), every output node position lies
in `[0, canvasWidth] × [0, canvasHeight]` (given the canvas dimensions are
nonnegative, as viewport sizes are); and for every node, crossing an edge
after integration inverts the corresponding velocity component (the damped
output velocity is the negation of the post-influence velocity times 0.99)
while the position is clamped back into bounds in the same update. -/
theorem updateNodes_bounds (sqrt : ℚ → ℚ) (mouseX mouseY : Option ℚ)
    (w h : ℚ) (hw : 0 ≤ w) (hh : 0 ≤ h) (nodes : List Node) :
    (∀ n ∈ updateNodes sqrt mouseX mouseY w h nodes,
      0 ≤ n.x ∧ n.x ≤ w ∧ 0 ≤ n.y ∧ n.y ≤ h) ∧
    (∀ nd : Node,
      (updateNode sqrt mouseX mouseY w h nd).x =
        max 0 (min w (nd.x + (influencedVelocity sqrt mouseX mouseY nd).1)) ∧
      (updateNode sqrt mouseX mouseY w h nd).y =
        max 0 (min h (nd.y + (influencedVelocity sqrt mouseX mouseY nd).2)) ∧
      ((nd.x + (influencedVelocity sqrt mouseX mouseY nd).1 < 0 ∨
        nd.x + (influencedVelocity sqrt mouseX mouseY nd).1 > w) →
        (updateNode sqrt mouseX mouseY w h nd).vx =
          -(influencedVelocity sqrt mouseX mouseY nd).1 * (99 / 100)) ∧
      ((nd.y + (influencedVelocity sqrt mouseX mouseY nd).2 < 0 ∨
        nd.y + (influencedVelocity sqrt mouseX mouseY nd).2 > h) →
        (updateNode sqrt mouseX mouseY w h nd).vy =
          -(influencedVelocity sqrt mouseX mouseY nd).2 * (99 / 100))) := by
  constructor
  · intro n hn
    simp only [updateNodes, List.mem_map] at hn
    obtain ⟨nd, -, rfl⟩ := hn
    refine ⟨le_max_left _ _, max_le hw (min_le_left _ _),
      le_max_left _ _, max_le hh (min_le_left _ _)⟩
  · intro nd
    refine ⟨rfl, rfl, ?_, ?_⟩
    · intro hcross
      simp only [updateNode, if_pos hcross]
    · intro hcross
      simp only [updateNode, if_pos hcross]

/-- A sample particle used to instantiate the boundary theorem. -/
def sampleNode : Node :=
  { x := 100, y := 50, vx := 3, vy := -2, radius := 2 }

/-- Concrete instantiation of `updateNodes_bounds`: the sample node on an
`800 × 600` canvas with no mouse influence stays inside the canvas. -/
theorem updateNodes_bounds_witness :
    0 ≤ (updateNode (fun q => q) none none 800 600 sampleNode).x ∧
    (updateNode (fun q => q) none none 800 600 sampleNode).x ≤ 800 ∧
    0 ≤ (updateNode (fun q => q) none none 800 600 sampleNode).y ∧
    (updateNode (fun q => q) none none 800 600 sampleNode).y ≤ 600 :=
  (updateNodes_bounds (fun q => q) none none 800 600 (by decide) (by decide)
    [sampleNode]).1 (updateNode (fun q => q) none none 800 600 sampleNode)
    (List.mem_singleton.mpr rfl)

/-- C2: `createNodes` always produces exactly `nodeCount = 50` nodes, and the
resize handler (which regenerates the whole set from scratch) leaves the
state with exactly `nodeCount` nodes — the list is built whole by a single
`map`, never partially. -/
theorem createNodes_count (rand : ℕ → ℚ) (w h innerW innerH : ℚ)
    (st : HeroState) :
    (createNodes rand w h).length = nodeCount ∧
    (resizeHandler rand innerW innerH st).nodes.length = nodeCount ∧
    nodeCount = 50 := by
  refine ⟨?_, ?_, rfl⟩
  · simp [createNodes]
  · simp [resizeHandler, setCanvasSize, createNodes]

/-- C3: when `prefersReducedMotion` holds, the `init` trace is exactly
set-size, create-nodes, one static render: it contains exactly one render,
no `requestAnimationFrame` call and no listener registration — so no
animation frame is ever scheduled and exactly one static render occurs. -/
theorem reducedMotion_static :
    initActions true = [.setSize, .makeNodes, .renderFrame] ∧
    (initActions true).count HeroAction.renderFrame = 1 ∧
    HeroAction.scheduleAnimationFrame ∉ initActions true ∧
    HeroAction.updateStep ∉ initActions true ∧
    HeroAction.addResizeListener ∉ initActions true ∧
    HeroAction.addMousemoveListener ∉ initActions true ∧
    HeroAction.addMouseleaveListener ∉ initActions true := by
  refine ⟨rfl, ?_, ?_, ?_, ?_, ?_, ?_⟩ <;> decide

/-! ## script.js — ThemeManager -/

/-- The `ThemeManager` state: the in-memory `this.theme`, the browser
storage slot `localStorage['theme']` (nullable), and the document attribute
`data-theme` set by `applyTheme`. -/
structure ThemeState where
  theme : String
  storage : Option String
  applied : String
deriving Repr, DecidableEq

/-- `localStorage.getItem('theme') || 'light'`: a missing key (null) and the
empty string are both falsy in JavaScript, so both fall back to `"light"`. -/
def readStoredTheme (storage : Option String) : String :=
  match storage with
  | none => "light"
  | some s => if s = "" then "light" else s

/-- The `ThemeManager` constructor plus `init`: read the stored preference
(default `"light"`) and apply it as the document attribute.  Storage itself
is not written at construction time. -/
def themeInit (storage : Option String) : ThemeState :=
  let t := readStoredTheme storage
  { theme := t, storage := storage, applied := t }

/-- `toggleTheme`: `this.theme = this.theme === 'light' ? 'dark' : 'light'`,
then persist (`localStorage.setItem`) and re-apply (`applyTheme`). -/
def toggleTheme (st : ThemeState) : ThemeState :=
  let t := if st.theme = "light" then "dark" else "light"
  { theme := t, storage := some t, applied := t }

/-- The state after `n` toggle-button clicks, starting from a construction
that read `storage`. -/
def themeAfter (storage : Option String) : ℕ → ThemeState
  | 0 => themeInit storage
  | n + 1 => toggleTheme (themeAfter storage n)

/-! ## script.js — markup model -/

/-- Markup written into a container via `innerHTML`, modelled structurally:
a node is either text or an element with a tag, an attribute list and
children. -/
inductive Html where
  | text : String → Html
  | elem : String → List (String × String) → List Html → Html
deriving Repr

mutual

/-- Number of elements carrying class `c` anywhere in a markup tree. -/
def Html.countClass (c : String) : Html → ℕ
  | .text _ => 0
  | .elem _ attrs children =>
      (if ("class", c) ∈ attrs then 1 else 0) + countClassList c children

/-- Number of elements carrying class `c` in a list of markup trees. -/
def countClassList (c : String) : List Html → ℕ
  | [] => 0
  | h :: t => Html.countClass c h + countClassList c t

end

/-! ## script.js — ExperienceTimeline -/

/-- One entry of the fetched `experience` array.  `description` and
`highlights` may be absent from the JSON object, hence `Option`. -/
structure Experience where
  title : String
  organization : String
  startDate : String
  endDate : String
  location : String
  description : Option String
  highlights : Option (List String)
deriving Repr, DecidableEq

/-- JavaScript truthiness of `exp.description`: absent (undefined) and the
empty string are falsy. -/
def truthyDescription : Option String → Bool
  | none => false
  | some s => s != ""

/-- `exp.highlights && exp.highlights.length > 0`. -/
def hasHighlights : Option (List String) → Bool
  | none => false
  | some hs => decide (hs.length > 0)

/-- The markup template of one timeline item in `renderTimeline`.  The
description paragraph and highlights list are emitted only when their field
is truthy resp. nonempty. -/
def timelineItemHtml (exp : Experience) : Html :=
  .elem "div" [("class", "timeline-item")]
    [ .elem "div" [("class", "timeline-marker")] [],
      .elem "div" [("class", "timeline-content")]
        ([ .elem "div" [("class", "timeline-header")]
            [ .elem "h3" [("class", "timeline-title")] [.text exp.title],
              .elem "div" [("class", "timeline-org")] [.text exp.organization],
              .elem "div" [("class", "timeline-meta")]
                [ .elem "span" [] [.text (exp.startDate ++ " - " ++ exp.endDate)],
                  .elem "span" [] [.text "•"],
                  .elem "span" [] [.text exp.location] ] ] ] ++
          (if truthyDescription exp.description then
            [ .elem "p" [("class", "timeline-description")]
                [.text (exp.description.getD "")] ]
          else []) ++
          (if hasHighlights exp.highlights then
            [ .elem "ul" [("class", "timeline-highlights")]
                ((exp.highlights.getD []).map fun hl =>
                  .elem "li" [] [.text hl]) ]
          else [])) ]

/-- `renderTimeline`: map every entry through the item template, in input
order, and join; the container is then replaced in one `innerHTML` write. -/
def renderTimeline (experiences : List Experience) : List Html :=
  experiences.map timelineItemHtml

/-- The loading placeholder written by `init` before the fetch. -/
def timelineLoadingHtml : List Html :=
  [ .elem "div"
      [("class", "timeline-loading"),
       ("style", "text-align: center; padding: 2rem; color: var(--text-secondary);")]
      [.text "Loading experience..."] ]

/-- `renderError`: the single user-visible error block, with the failure
reason in the second paragraph. -/
def renderError (message : String) : List Html :=
  [ .elem "div"
      [("class", "timeline-error"),
       ("style", "text-align: center; padding: 2rem; color: var(--text-secondary);")]
      [ .elem "p" [] [.text "Unable to load experience data."],
        .elem "p" [("style", "font-size: 0.875rem; margin-top: 0.5rem; opacity: 0.7;")]
          [.text ("Error: " ++ message)] ] ]

/-- Outcome of the `fetch` / `response.json()` sequence in
`ExperienceTimeline.init`: success with the parsed `experience` array,
non-OK HTTP status (the `throw new Error` branch), JSON parse rejection, or
network rejection of `fetch` itself. -/
inductive FetchResult where
  | ok : List Experience → FetchResult
  | httpError : ℕ → FetchResult
  | parseError : String → FetchResult
  | networkError : String → FetchResult
deriving Repr

/-- The `error.message` that reaches the `catch` block for each failure. -/
def FetchResult.errorText : FetchResult → String
  | .httpError status => "HTTP error! status: " ++ toString status
  | .parseError msg => msg
  | .networkError msg => msg
  | .ok _ => ""

/-- Failure discriminator: everything except `ok`. -/
def FetchResult.isFailure : FetchResult → Bool
  | .ok _ => false
  | .httpError _ => true
  | .parseError _ => true
  | .networkError _ => true

/-- The second (final) container write of `init`: the full timeline on
success, the error block for every caught failure.  The `try`/`catch` in
`init` catches all three failure kinds, so this function is total — no
failure escapes to a caller. -/
def timelineFinalWrite : FetchResult → List Html
  | .ok data => renderTimeline data
  | .httpError s => renderError (FetchResult.errorText (.httpError s))
  | .parseError m => renderError (FetchResult.errorText (.parseError m))
  | .networkError m => renderError (FetchResult.errorText (.networkError m))

/-- The complete sequence of `innerHTML` writes performed by
`ExperienceTimeline.init` on its container: the loading placeholder, then
exactly one final write. -/
def timelineInitWrites (r : FetchResult) : List (List Html) :=
  [timelineLoadingHtml, timelineFinalWrite r]

/-! ## script.js — SmoothScroll -/

/-- The click handler `SmoothScroll.init` attaches to every
`a[href^="#"]`: `e.preventDefault()` unconditionally, then
`document.querySelector(href)`; when a target exists, scroll to its
`offsetTop` minus the fixed 80-unit header offset.  `lookup` maps an href
to the target element's `offsetTop` (`none` when no element matches).  The
result is (default prevented, requested scroll top). -/
def smoothScrollClick (lookup : String → Option ℚ) (href : String) :
    Bool × Option ℚ :=
  (true,
    match lookup href with
    | some top => some (top - 80)
    | none => none)

/-! ## script.js — ScrollProgress -/

/-- The scroll listener of `ScrollProgress.init`:
`(scrollTop / (scrollHeight - clientHeight)) * 100`, assigned to the bar
width with no guard, clamp or smoothing.  (Rational division by zero is 0
here; the source, in JavaScript floats, yields NaN at a zero denominator —
either way the division is unguarded.) -/
def scrollProgressWidth (scrollTop scrollHeight clientHeight : ℚ) : ℚ :=
  scrollTop / (scrollHeight - clientHeight) * 100

/-! ## script.js — ActiveNav -/

/-- One `section[id]` element as seen by `ActiveNav`: its `id`, `offsetTop`
and `clientHeight` (the latter is read but unused in the source). -/
structure PageSection where
  id : String
  offsetTop : ℚ
  clientHeight : ℚ
deriving Repr, DecidableEq

/-- The first loop of the `ActiveNav` scroll listener: `current` starts as
the empty string and is overwritten by each section (in document order)
satisfying `window.scrollY >= sectionTop - 100`. -/
def computeCurrent (sections : List PageSection) (scrollY : ℚ) : String :=
  sections.foldl
    (fun current s => if scrollY ≥ s.offsetTop - 100 then s.id else current) ""

/-- The second loop of the scroll listener: every link's `active` class is
removed, then re-added exactly when its href equals `"#" ++ current`.  The
result pairs each link href with its final active flag. -/
def activeNavUpdate (sections : List PageSection) (links : List String)
    (scrollY : ℚ) : List (String × Bool) :=
  let current := computeCurrent sections scrollY
  links.map fun href => (href, href = "#" ++ current)

/-! ## Markup counting lemmas -/

@[simp]
lemma countClass_text (c s : String) : Html.countClass c (.text s) = 0 := by
  simp [Html.countClass]

@[simp]
lemma countClass_elem (c tag : String) (attrs : List (String × String))
    (children : List Html) :
    Html.countClass c (.elem tag attrs children) =
      (if ("class", c) ∈ attrs then 1 else 0) + countClassList c children := by
  simp [Html.countClass]

@[simp]
lemma countClassList_nil (c : String) : countClassList c [] = 0 := by
  simp [countClassList]

@[simp]
lemma countClassList_cons (c : String) (h : Html) (t : List Html) :
    countClassList c (h :: t) = Html.countClass c h + countClassList c t := by
  simp [countClassList]

@[simp]
lemma countClassList_append (c : String) (l1 l2 : List Html) :
    countClassList c (l1 ++ l2) = countClassList c l1 + countClassList c l2 := by
  induction l1 with
  | nil => simp
  | cons h t ih => simp [ih, add_assoc]

lemma countClassList_li (c : String) (hs : List String) :
    countClassList c (hs.map fun hl => Html.elem "li" [] [Html.text hl]) = 0 := by
  induction hs with
  | nil => simp
  | cons h t ih => simp [ih]

lemma countClass_item_one (e : Experience) :
    Html.countClass "timeline-item" (timelineItemHtml e) = 1 := by
  simp only [timelineItemHtml]
  cases hd : truthyDescription e.description <;>
    cases hh : hasHighlights e.highlights <;>
      simp [countClassList_li]

lemma countClass_item_description (e : Experience) :
    Html.countClass "timeline-description" (timelineItemHtml e) =
      (if truthyDescription e.description then 1 else 0) := by
  simp only [timelineItemHtml]
  cases hd : truthyDescription e.description <;>
    cases hh : hasHighlights e.highlights <;>
      simp [countClassList_li]

lemma countClass_item_highlights (e : Experience) :
    Html.countClass "timeline-highlights" (timelineItemHtml e) =
      (if hasHighlights e.highlights then 1 else 0) := by
  simp only [timelineItemHtml]
  cases hd : truthyDescription e.description <;>
    cases hh : hasHighlights e.highlights <;>
      simp [countClassList_li]

lemma countClass_renderTimeline (exps : List Experience) :
    countClassList "timeline-item" (renderTimeline exps) = exps.length := by
  induction exps with
  | nil => simp [renderTimeline]
  | cons e t ih =>
    simp only [renderTimeline, List.map_cons, countClassList_cons,
      List.length_cons] at ih ⊢
    rw [countClass_item_one, ih]
    omega

lemma countClass_renderError_error (msg : String) :
    countClassList "timeline-error" (renderError msg) = 1 := by
  simp [renderError]

lemma countClass_renderError_item (msg : String) :
    countClassList "timeline-item" (renderError msg) = 0 := by
  simp [renderError]

lemma countClass_loading_item :
    countClassList "timeline-item" timelineLoadingHtml = 0 := by
  simp [timelineLoadingHtml]

/-! ## Theorems for the ExperienceTimeline claims -/

/-- C4: every failed load (non-OK HTTP status, parse failure, network
failure) ends with the container holding exactly the error block built from
the failure reason: one `timeline-error` element, zero `timeline-item`
elements, and neither of the two container writes ever holds a timeline
item (no partial timeline).  The embedding of `init` is a total function —
the `catch` absorbs every failure, so nothing propagates to a caller. -/
theorem timeline_failure_single_error (r : FetchResult)
    (hr : r.isFailure = true) :
    timelineFinalWrite r = renderError r.errorText ∧
    timelineInitWrites r = [timelineLoadingHtml, renderError r.errorText] ∧
    countClassList "timeline-error" (timelineFinalWrite r) = 1 ∧
    countClassList "timeline-item" (timelineFinalWrite r) = 0 ∧
    countClassList "timeline-item" timelineLoadingHtml = 0 := by
  cases r with
  | ok data => simp [FetchResult.isFailure] at hr
  | httpError s =>
    exact ⟨rfl, rfl, countClass_renderError_error _,
      countClass_renderError_item _, countClass_loading_item⟩
  | parseError m =>
    exact ⟨rfl, rfl, countClass_renderError_error _,
      countClass_renderError_item _, countClass_loading_item⟩
  | networkError m =>
    exact ⟨rfl, rfl, countClass_renderError_error _,
      countClass_renderError_item _, countClass_loading_item⟩

/-- Instantiation of `timeline_failure_single_error` at a rejected fetch
with message "Failed to fetch". -/
theorem timeline_failure_single_error_witness :
    timelineFinalWrite (.networkError "Failed to fetch") =
      renderError (FetchResult.errorText (.networkError "Failed to fetch")) ∧
    timelineInitWrites (.networkError "Failed to fetch") =
      [timelineLoadingHtml,
       renderError (FetchResult.errorText (.networkError "Failed to fetch"))] ∧
    countClassList "timeline-error"
      (timelineFinalWrite (.networkError "Failed to fetch")) = 1 ∧
    countClassList "timeline-item"
      (timelineFinalWrite (.networkError "Failed to fetch")) = 0 ∧
    countClassList "timeline-item" timelineLoadingHtml = 0 :=
  timeline_failure_single_error (.networkError "Failed to fetch") rfl

/-- First entry of the two-entry test fixture. -/
def fixtureEntryA : Experience :=
  { title := "Lead Designer"
    organization := "Studio A"
    startDate := "2019"
    endDate := "2022"
    location := "Remote"
    description := some "Led the design team."
    highlights := some ["Shipped two titles", "Grew the team"] }

/-- Second entry of the two-entry test fixture, with the optional fields
absent. -/
def fixtureEntryB : Experience :=
  { title := "Designer"
    organization := "Studio B"
    startDate := "2015"
    endDate := "2019"
    location := "New York"
    description := none
    highlights := none }

/-- C5: on success the container is replaced in one write by the entries
mapped through the fixed item template in input order; the item count
equals the entry count; each item carries the `timeline-description`
paragraph exactly when the description field is truthy and the
`timeline-highlights` list exactly when the highlights list is nonempty
(absent or empty fields omit the fragment entirely); and for the two-entry
fixture the output is exactly the two item blocks in input order. -/
theorem renderTimeline_order_and_omission :
    (∀ exps : List Experience,
      timelineInitWrites (.ok exps) = [timelineLoadingHtml, renderTimeline exps] ∧
      renderTimeline exps = exps.map timelineItemHtml ∧
      countClassList "timeline-item" (renderTimeline exps) = exps.length) ∧
    (∀ e : Experience,
      Html.countClass "timeline-item" (timelineItemHtml e) = 1 ∧
      Html.countClass "timeline-description" (timelineItemHtml e) =
        (if truthyDescription e.description then 1 else 0) ∧
      Html.countClass "timeline-highlights" (timelineItemHtml e) =
        (if hasHighlights e.highlights then 1 else 0)) ∧
    (renderTimeline [fixtureEntryA, fixtureEntryB] =
      [timelineItemHtml fixtureEntryA, timelineItemHtml fixtureEntryB] ∧
     countClassList "timeline-item" (renderTimeline [fixtureEntryA, fixtureEntryB]) = 2 ∧
     Html.countClass "timeline-description" (timelineItemHtml fixtureEntryB) = 0 ∧
     Html.countClass "timeline-highlights" (timelineItemHtml fixtureEntryB) = 0) := by
  refine ⟨fun exps => ⟨rfl, rfl, countClass_renderTimeline exps⟩,
    fun e => ⟨countClass_item_one e, countClass_item_description e,
      countClass_item_highlights e⟩, rfl, ?_, ?_, ?_⟩
  · exact countClass_renderTimeline [fixtureEntryA, fixtureEntryB]
  · rw [countClass_item_description]; rfl
  · rw [countClass_item_highlights]; rfl

/-! ## Theorems for the ThemeManager claims -/

/-- C6: starting from a valid persisted/default value, after any sequence
of toggle clicks the applied document attribute equals the in-memory theme
and equals the value read back from storage with the startup default; the
theme is always one of `"light"`/`"dark"`; and each further click flips it
strictly (`light ↔ dark`), so the value alternates along the sequence. -/
theorem theme_toggle_alternation (storage : Option String)
    (h : readStoredTheme storage = "light" ∨ readStoredTheme storage = "dark")
    (n : ℕ) :
    (themeAfter storage n).applied = (themeAfter storage n).theme ∧
    (themeAfter storage n).applied =
      readStoredTheme (themeAfter storage n).storage ∧
    ((themeAfter storage n).theme = "light" ∨
      (themeAfter storage n).theme = "dark") ∧
    (themeAfter storage (n + 1)).theme =
      (if (themeAfter storage n).theme = "light" then "dark" else "light") ∧
    (themeAfter storage (n + 1)).theme ≠ (themeAfter storage n).theme := by
  induction n with
  | zero =>
    refine ⟨rfl, rfl, h, rfl, ?_⟩
    rcases h with h | h <;>
      simp [themeAfter, themeInit, toggleTheme, h]
  | succ n ih =>
    obtain ⟨-, -, hval, -, -⟩ := ih
    rcases hval with hv | hv <;>
      refine ⟨rfl, ?_, ?_, rfl, ?_⟩ <;>
        simp [themeAfter, toggleTheme, readStoredTheme, hv]

/-- Instantiation of `theme_toggle_alternation`: empty storage (default
`"light"`), two clicks. -/
theorem theme_toggle_alternation_witness :
    (themeAfter none 2).applied = (themeAfter none 2).theme ∧
    (themeAfter none 2).applied = readStoredTheme (themeAfter none 2).storage ∧
    ((themeAfter none 2).theme = "light" ∨ (themeAfter none 2).theme = "dark") ∧
    (themeAfter none 3).theme =
      (if (themeAfter none 2).theme = "light" then "dark" else "light") ∧
    (themeAfter none 3).theme ≠ (themeAfter none 2).theme :=
  theme_toggle_alternation none (Or.inl rfl) 2

/-- C10: `toggleTheme` maps `"light"` to `"dark"` and every other string —
including arbitrary values read from storage at startup — to `"light"`;
consequently after the first click the theme is always in
`{"light", "dark"}`, whatever was initially persisted. -/
theorem toggleTheme_total_mapping :
    (∀ st : ThemeState,
      (toggleTheme st).theme =
        (if st.theme = "light" then "dark" else "light")) ∧
    (∀ st : ThemeState, st.theme ≠ "light" → (toggleTheme st).theme = "light") ∧
    (∀ storage : Option String, ∀ n : ℕ, 1 ≤ n →
      (themeAfter storage n).theme = "light" ∨
        (themeAfter storage n).theme = "dark") := by
  refine ⟨fun st => rfl, fun st h => by simp [toggleTheme, h], ?_⟩
  intro storage n hn
  match n, hn with
  | n + 1, _ =>
    by_cases h : (themeAfter storage n).theme = "light" <;>
      simp [themeAfter, toggleTheme, h]

/-- Instantiation of `toggleTheme_total_mapping`: storage initially holds
the out-of-domain value `"purple"`; after one click the theme is back in
the binary domain. -/
theorem toggleTheme_total_mapping_witness :
    (themeAfter (some "purple") 1).theme = "light" ∨
      (themeAfter (some "purple") 1).theme = "dark" :=
  toggleTheme_total_mapping.2.2 (some "purple") 1 (by decide)

/-! ## Theorems for the ActiveNav claim -/

lemma foldl_pick_last {α : Type} (p : α → Prop) [DecidablePred p]
    (f : α → String) :
    ∀ (l : List α) (acc : String),
      l.foldl (fun c a => if p a then f a else c) acc =
        (((l.filter fun a => decide (p a)).getLast?).map f).getD acc := by
  intro l
  induction l with
  | nil => intro acc; rfl
  | cons a t ih =>
    intro acc
    rw [List.foldl_cons]
    by_cases hpa : p a
    · rw [if_pos hpa, ih]
      have hfc : (a :: t).filter (fun a => decide (p a)) =
          a :: t.filter (fun a => decide (p a)) := by
        simp [List.filter_cons, hpa]
      rw [hfc]
      cases hft : t.filter (fun a => decide (p a)) with
      | nil => simp [hft]
      | cons b u =>
        rcases hx : (b :: u).getLast? with - | x
        · exact absurd hx (by simp)
        · simp [hft, List.getLast?_cons_cons, hx]
    · rw [if_neg hpa, ih]
      have hfc : (a :: t).filter (fun a => decide (p a)) =
          t.filter (fun a => decide (p a)) := by
        simp [List.filter_cons, hpa]
      rw [hfc]

/-- C7: on a scroll event, `current` is the identifier of the last section
in document order satisfying `scrollY ≥ offsetTop − 100` (the empty string
when none does); a link ends up active exactly when its href is
`"#" ++ current`; and — provided no link has the degenerate href `"#"` —
when no section qualifies, no link is marked active. -/
theorem activeNav_last_past_section (sections : List PageSection)
    (links : List String) (scrollY : ℚ)
    (hl : ∀ l ∈ links, l ≠ "#") :
    computeCurrent sections scrollY =
      ((((sections.filter fun s =>
            decide (scrollY ≥ s.offsetTop - 100)).getLast?).map
        PageSection.id).getD "") ∧
    (∀ q ∈ activeNavUpdate sections links scrollY,
      (q.2 = true ↔ q.1 = "#" ++ computeCurrent sections scrollY)) ∧
    ((sections.filter fun s => decide (scrollY ≥ s.offsetTop - 100)) = [] →
      ∀ q ∈ activeNavUpdate sections links scrollY, q.2 = false) := by
  refine ⟨?_, ?_, ?_⟩
  · exact foldl_pick_last (fun s => scrollY ≥ s.offsetTop - 100)
      PageSection.id sections ""
  · intro q hq
    simp only [activeNavUpdate, List.mem_map] at hq
    obtain ⟨href, -, rfl⟩ := hq
    simp
  · intro hempty q hq
    simp only [activeNavUpdate, List.mem_map] at hq
    obtain ⟨href, hmem, rfl⟩ := hq
    have hcur : computeCurrent sections scrollY = "" := by
      have hfold := foldl_pick_last (fun s => scrollY ≥ s.offsetTop - 100)
        PageSection.id sections ""
      rw [hempty] at hfold
      exact hfold
    simp only [hcur, decide_eq_false_iff_not]
    intro hcontra
    exact hl href hmem hcontra

/-- Instantiation of `activeNav_last_past_section`: two sections at offsets
200 and 600, links to both, scroll position 250 — the first section (and
only it) has been scrolled past. -/
theorem activeNav_last_past_section_witness :
    computeCurrent
        [⟨"about", 200, 300⟩, ⟨"work", 600, 300⟩] 250 =
      (((([⟨"about", 200, 300⟩, ⟨"work", 600, 300⟩] :
            List PageSection).filter fun s =>
            decide ((250 : ℚ) ≥ s.offsetTop - 100)).getLast?).map
        PageSection.id).getD "" :=
  (activeNav_last_past_section
    [⟨"about", 200, 300⟩, ⟨"work", 600, 300⟩]
    ["#about", "#work"] 250
    (by intro l hm; fin_cases hm <;> decide)).1

/-! ## Theorem for the SmoothScroll claim -/

/-- C8: every click on an `a[href^="#"]` link suppresses the default jump
unconditionally; when the fragment resolves to an element the requested
scroll top is the target's `offsetTop` minus the fixed 80-unit header
offset; when it does not resolve, no scroll is requested (while the default
is still suppressed). -/
theorem smoothScroll_click_behavior (lookup : String → Option ℚ)
    (href : String) :
    (smoothScrollClick lookup href).1 = true ∧
    (∀ top : ℚ, lookup href = some top →
      (smoothScrollClick lookup href).2 = some (top - 80)) ∧
    (lookup href = none → (smoothScrollClick lookup href).2 = none) := by
  refine ⟨rfl, ?_, ?_⟩
  · intro top htop
    simp [smoothScrollClick, htop]
  · intro hnone
    simp [smoothScrollClick, hnone]

/-- A page with a single `about` element at `offsetTop` 400. -/
def sampleLookup : String → Option ℚ :=
  fun href => if href = "#about" then some 400 else none

/-- Instantiation of `smoothScroll_click_behavior`: the `#about` target at
offset 400 scrolls to `400 − 80`. -/
theorem smoothScroll_click_behavior_witness :
    (smoothScrollClick sampleLookup "#about").2 = some (400 - 80) :=
  (smoothScroll_click_behavior sampleLookup "#about").2.1 400 rfl

/-! ## Theorem for the ScrollProgress claim -/

/-- C9: the progress width is exactly
`scrollTop / (scrollHeight − clientHeight) * 100` with no clamping or
smoothing, and at the exact bottom (`scrollTop = scrollHeight −
clientHeight`, denominator nonzero) it equals 100.  The definition applies
unconditionally — the zero-denominator case is unguarded (rational division
by zero; NaN in the JavaScript floats of the source). -/
theorem scrollProgress_formula (scrollTop scrollHeight clientHeight : ℚ) :
    scrollProgressWidth scrollTop scrollHeight clientHeight =
      scrollTop / (scrollHeight - clientHeight) * 100 ∧
    (scrollHeight ≠ clientHeight →
      scrollProgressWidth (scrollHeight - clientHeight) scrollHeight
        clientHeight = 100) := by
  refine ⟨rfl, ?_⟩
  intro hne
  unfold scrollProgressWidth
  rw [div_self (sub_ne_zero.mpr hne), one_mul]

/-- Instantiation of `scrollProgress_formula`: a 2000-unit document in an
800-unit viewport, scrolled to the exact bottom. -/
theorem scrollProgress_formula_witness :
    scrollProgressWidth ((2000 : ℚ) - 800) 2000 800 = 100 :=
  (scrollProgress_formula 0 2000 800).2 (by decide)

end AdamTroy
